import Mathlib

/-!
# Verification of the related-item query synthesis in `confluence-ts-client-mcp`

This file gives a shallow embedding of the "related content" discovery feature
of the repository: the keyword extractor and query synthesizer of
`ConfluenceClient.getTopicallyRelatedPages` and `JiraClient.getRelatedIssues`,
the surrounding error-handling (`handleError` in both clients), the
effect structure of the two operations (one fetch call followed by at most one
search call), and the `getSprintIssues` issue-type filter.

Strings are modelled as Lean `String`; the JavaScript operations used by the
source (`String.prototype.split(/\s+/)`, `Array.prototype.filter`,
`Array.prototype.map`, `String.prototype.replace(/[^\w\s]/g, '')`,
`Array.prototype.join`) are embedded as executable functions below.  Token
lengths are counted in characters; all inputs considered here are in the Basic
Multilingual Plane, where this agrees with JavaScript's UTF-16 `length`.
-/

/-- The character class matched by the JavaScript regex `\s`
(ECMAScript WhiteSpace ∪ LineTerminator). -/
def isJsSpace (c : Char) : Bool :=
  c = ' ' || c = '\t' || c = '\n' || c = '\r' || c.val = 11 || c.val = 12 ||
  c.val = 0xa0 || c.val = 0x1680 || (0x2000 ≤ c.val && c.val ≤ 0x200a) ||
  c.val = 0x2028 || c.val = 0x2029 || c.val = 0x202f || c.val = 0x205f ||
  c.val = 0x3000 || c.val = 0xfeff

/-- The character class matched by the JavaScript regex `\w`: `[A-Za-z0-9_]`. -/
def isWordChar (c : Char) : Bool :=
  ('a' ≤ c && c ≤ 'z') || ('A' ≤ c && c ≤ 'Z') || ('0' ≤ c && c ≤ '9') || c = '_'

/-- Accumulator pass for `jsSplitWs`.  `cur` holds the characters of the token
being built (reversed); `lastWs` records whether the previous character was
whitespace (so that a run of whitespace produces a single boundary, as the
greedy `\s+` does). -/
def jsSplitWsAux : List Char → List Char → Bool → List (List Char)
  | [], cur, _ => [cur.reverse]
  | c :: rest, cur, lastWs =>
    if isJsSpace c then
      if lastWs then jsSplitWsAux rest cur true
      else cur.reverse :: jsSplitWsAux rest [] true
    else jsSplitWsAux rest (c :: cur) false

/-- JavaScript `str.split(/\s+/)`: split at each maximal run of whitespace.
Like the JavaScript original, this yields an empty token at the start (resp.
end) when the input starts (resp. ends) with whitespace, and `[""]` on the
empty string. -/
def jsSplitWs (cs : List Char) : List (List Char) :=
  jsSplitWsAux cs [] false

/-- JavaScript `word.replace(/[^\w\s]/g, '')`: delete every character that is
neither a word character nor whitespace. -/
def stripNonWord (t : List Char) : List Char :=
  t.filter (fun c => isWordChar c || isJsSpace c)

/-- The keyword extractor shared by `getTopicallyRelatedPages` (source line
446) and `getRelatedIssues` (source line 396):

    text.split(/\s+/).filter(word => word.length > 3)
        .map(word => word.replace(/[^\w\s]/g, ''))
-/
def extractKeywords (text : String) : List String :=
  ((jsSplitWs text.data).filter (fun t => t.length > 3)).map
    (fun t => (stripNonWord t).asString)

/-- JavaScript `Array.prototype.join(sep)` (for string arrays). -/
def jsJoin (sep : String) : List String → String
  | [] => ""
  | s :: ss => ss.foldl (fun a b => a ++ sep ++ b) s

/-- CQL clause `title ~ "<w>"` built at source line 457 of the Confluence
client. -/
def titleClause (w : String) : String := "title ~ \"" ++ w ++ "\""

/-- CQL clause `labelText = "<n>"` built at source line 466 of the Confluence
client. -/
def labelTextClause (n : String) : String := "labelText = \"" ++ n ++ "\""

/-- JQL clause `summary ~ "<w>"` built at source line 403 of the Jira
client. -/
def summaryClause (w : String) : String := "summary ~ \"" ++ w ++ "\""

/-- JQL clause `labels = "<l>"` built at source line 412 of the Jira
client. -/
def labelsClause (l : String) : String := "labels = \"" ++ l ++ "\""

/-- The CQL synthesis of `getTopicallyRelatedPages` (source lines 452-472),
parameterised over the already-extracted keyword list:

    let relatedQuery = `type = page AND id != ${pageId}`;
    if (keywords.length > 0) { relatedQuery += ` AND (${titleTerms})`; }
    if (labels.length > 0)   { relatedQuery +=
        keywords.length > 0 ? ` OR (${labelTerms})` : ` AND (${labelTerms})`; }

`labels` is the list of label names of the source page
(`sourcePage.metadata?.labels?.results || []`, then `.name`). -/
def docQueryOfKeywords (pageId : String) (keywords labels : List String) : String :=
  let base := "type = page AND id != " ++ pageId
  let q1 :=
    if keywords.length > 0 then
      base ++ " AND (" ++ jsJoin " OR " (keywords.map titleClause) ++ ")"
    else base
  if labels.length > 0 then
    let labelTerms := jsJoin " OR " (labels.map labelTextClause)
    q1 ++ (if keywords.length > 0 then " OR (" ++ labelTerms ++ ")"
           else " AND (" ++ labelTerms ++ ")")
  else q1

/-- The full CQL synthesis of `getTopicallyRelatedPages`: keywords are
extracted from the source page's title. -/
def buildDocQuery (pageId title : String) (labels : List String) : String :=
  docQueryOfKeywords pageId (extractKeywords title) labels

/-- The JQL synthesis of `getRelatedIssues` (source lines 389-418):

    relatedQueries.push(`project = ${issue.fields.project.key}`);
    if (issue.fields.summary) { ... if (keywords.length > 0) push(`(${keywordQuery})`); }
    if (issue.fields.labels && issue.fields.labels.length > 0) push(`(${labelQuery})`);
    const jql = `(${relatedQueries.join(' OR ')}) AND issuekey != ${issueKey}
                 ORDER BY updated DESC`;
-/
def buildJqlQuery (issueKey projectKey summary : String) (labels : List String) : String :=
  let relatedQueries : List String := ["project = " ++ projectKey]
  let relatedQueries :=
    if summary ≠ "" then
      let keywords := extractKeywords summary
      if keywords.length > 0 then
        relatedQueries ++ ["(" ++ jsJoin " OR " (keywords.map summaryClause) ++ ")"]
      else relatedQueries
    else relatedQueries
  let relatedQueries :=
    if labels.length > 0 then
      relatedQueries ++ ["(" ++ jsJoin " OR " (labels.map labelsClause) ++ ")"]
    else relatedQueries
  "(" ++ jsJoin " OR " relatedQueries ++ ") AND issuekey != " ++ issueKey ++
    " ORDER BY updated DESC"

/-!
## Spec-side tokenizer

The specification describes the first step of the keyword extractor as
"split the text on whitespace runs", i.e. the list of maximal non-whitespace
runs (no empty tokens).  `specSplit` embeds that description; the lemma
`jsSplitWs_filter_eq_specSplit` shows the JavaScript split, which may also
yield an empty token at either end, agrees with it after the length filter.
-/

/-- Accumulator pass for `specSplit`: collects maximal runs of non-whitespace
characters, never emitting an empty token. -/
def specSplitAux : List Char → List Char → List (List Char)
  | [], cur => if cur.isEmpty then [] else [cur.reverse]
  | c :: rest, cur =>
    if isJsSpace c then
      if cur.isEmpty then specSplitAux rest []
      else cur.reverse :: specSplitAux rest []
    else specSplitAux rest (c :: cur)

/-- Split a character list at whitespace into its maximal non-whitespace runs
(the specification's "split on whitespace runs"). -/
def specSplit (cs : List Char) : List (List Char) :=
  specSplitAux cs []

/-!
## Query expressions and their semantics

Both target query languages (Confluence CQL and Jira JQL) document the
precedence `NOT > AND > OR`, with left associativity.  `QExpr` is the abstract
syntax of the fragment the synthesizer can produce; `serializeQ` prints it with
parentheses exactly where the source code writes them (the `group`
constructor), and `evalQ` is the evaluation of an expression on an item, with
the fuzzy term match `~` kept as a parameter `tm`.
-/

/-- Abstract syntax of the CQL/JQL fragment produced by the synthesizer. -/
inductive QExpr where
  | typePage : QExpr
  | idNe (p : String) : QExpr
  | titleLike (w : String) : QExpr
  | labelText (l : String) : QExpr
  | projIs (pk : String) : QExpr
  | summaryLike (w : String) : QExpr
  | labelsHas (l : String) : QExpr
  | keyNe (k : String) : QExpr
  | and (a b : QExpr) : QExpr
  | or (a b : QExpr) : QExpr
  | group (e : QExpr) : QExpr
deriving DecidableEq, Repr

/-- An item (page or issue) as seen by query evaluation. -/
structure Item where
  id : String
  key : String
  isPage : Bool
  title : String
  summary : String
  projKey : String
  labels : List String
deriving DecidableEq, Repr

/-- Evaluation of a query expression on an item.  `tm field w` is the remote
service's fuzzy `~` match of the word `w` against a text field; it is a
parameter because the claims must hold for every such match. -/
def evalQ (tm : String → String → Bool) (it : Item) : QExpr → Bool
  | .typePage => it.isPage
  | .idNe p => !(it.id == p)
  | .titleLike w => tm it.title w
  | .labelText l => it.labels.contains l
  | .projIs pk => it.projKey == pk
  | .summaryLike w => tm it.summary w
  | .labelsHas l => it.labels.contains l
  | .keyNe k => !(it.key == k)
  | .and a b => evalQ tm it a && evalQ tm it b
  | .or a b => evalQ tm it a || evalQ tm it b
  | .group e => evalQ tm it e

/-- Print a query expression; parentheses appear exactly at `group` nodes. -/
def serializeQ : QExpr → String
  | .typePage => "type = page"
  | .idNe p => "id != " ++ p
  | .titleLike w => titleClause w
  | .labelText l => labelTextClause l
  | .projIs pk => "project = " ++ pk
  | .summaryLike w => summaryClause w
  | .labelsHas l => labelsClause l
  | .keyNe k => "issuekey != " ++ k
  | .and a b => serializeQ a ++ " AND " ++ serializeQ b
  | .or a b => serializeQ a ++ " OR " ++ serializeQ b
  | .group e => "(" ++ serializeQ e ++ ")"

/-- Left-associated `OR`-chain `e OR e₁ OR ... OR eₙ`. -/
def orChain (e : QExpr) (es : List QExpr) : QExpr :=
  es.foldl QExpr.or e

/-- The parse, under CQL precedence (`AND` tighter than `OR`), of the string
built by `docQueryOfKeywords`.  The source appends `" OR (labelTerms)"` at the
end when keywords and labels are both present, so in that case the whole
expression is a top-level disjunction whose left branch alone carries the
`id != <pageId>` conjunct. -/
def docQueryAst (pageId : String) (keywords labels : List String) : QExpr :=
  let base := QExpr.and .typePage (.idNe pageId)
  match keywords, labels with
  | [], [] => base
  | [], l :: ls =>
      .and base (.group (orChain (.labelText l) (ls.map QExpr.labelText)))
  | w :: ws, [] =>
      .and base (.group (orChain (.titleLike w) (ws.map QExpr.titleLike)))
  | w :: ws, l :: ls =>
      .or (.and base (.group (orChain (.titleLike w) (ws.map QExpr.titleLike))))
          (.group (orChain (.labelText l) (ls.map QExpr.labelText)))

/-- Disjunction of `f w` over a list of words, `none` when the list is empty. -/
def disjOf (f : String → QExpr) : List String → Option QExpr
  | [] => none
  | w :: ws => some (orChain (f w) (ws.map f))

/-- The members of the `relatedQueries` array of `getRelatedIssues`, as query
expressions: the project clause, then (when the summary is truthy and yields
keywords) the summary disjunction, then (when labels exist) the label
disjunction. -/
def jqlParts (projectKey summary : String) (labels : List String) : List QExpr :=
  let p1 : List QExpr := [QExpr.projIs projectKey]
  let p2 : List QExpr :=
    if summary ≠ "" then
      match disjOf QExpr.summaryLike (extractKeywords summary) with
      | some d => [QExpr.group d]
      | none => []
    else []
  let p3 : List QExpr :=
    match disjOf QExpr.labelsHas labels with
    | some d => [QExpr.group d]
    | none => []
  p1 ++ p2 ++ p3

/-- `OR`-chain of a list of parts (the list is never empty where this is used:
`jqlParts` always starts with the project clause). -/
def orChainL : List QExpr → QExpr
  | [] => QExpr.typePage
  | e :: es => orChain e es

/-- The parse of the JQL string built by `buildJqlQuery` (without the trailing
`ORDER BY updated DESC`, which is not part of the boolean expression): the
parenthesized disjunction of the parts, conjoined with `issuekey != <key>`. -/
def jqlQueryAst (issueKey projectKey summary : String) (labels : List String) : QExpr :=
  QExpr.and (.group (orChainL (jqlParts projectKey summary labels)))
    (.keyNe issueKey)

/-!
## A reference parser for the produced query strings

To certify how the synthesized strings read under the target languages'
documented precedence (`AND` binds tighter than `OR`, both left-associative),
this section implements a small tokenizer and recursive-descent parser for the
fragment the synthesizer can emit.  It is used on concrete synthesized strings
below; `parseQuery` honours the precedence in the usual way (`expr` is a chain
of `OR`-separated `term`s, a `term` a chain of `AND`-separated `factor`s, a
`factor` a parenthesized expression or an atom).
-/

/-- Raw lexical tokens: parentheses, quoted strings, and bare words. -/
inductive RawTok where
  | lpar : RawTok
  | rpar : RawTok
  | word (s : String) : RawTok
  | str (s : String) : RawTok
deriving DecidableEq, Repr

/-- Tokenize a query string.  The fuel argument only bounds recursion; every
call consumes at least one character, so `length + 1` fuel always suffices. -/
def tokenizeRaw : Nat → List Char → Option (List RawTok)
  | _, [] => some []
  | 0, _ :: _ => none
  | fuel + 1, c :: cs =>
    if c = ' ' then tokenizeRaw fuel cs
    else if c = '(' then (tokenizeRaw fuel cs).map (RawTok.lpar :: ·)
    else if c = ')' then (tokenizeRaw fuel cs).map (RawTok.rpar :: ·)
    else if c = '"' then
      match cs.dropWhile (fun d => !(d = '"')) with
      | '"' :: rest =>
        (tokenizeRaw fuel rest).map
          (RawTok.str (cs.takeWhile (fun d => !(d = '"'))).asString :: ·)
      | _ => none
    else
      let keep := fun d : Char => !(d = ' ') && !(d = '(') && !(d = ')') && !(d = '"')
      (tokenizeRaw fuel ((c :: cs).dropWhile keep)).map
        (RawTok.word ((c :: cs).takeWhile keep).asString :: ·)

/-- Parser tokens: operators, parentheses, atoms, and the trailing
`ORDER BY updated DESC` marker of JQL. -/
inductive Tok where
  | lparT : Tok
  | rparT : Tok
  | andT : Tok
  | orT : Tok
  | orderByT : Tok
  | atomT (a : QExpr) : Tok
deriving DecidableEq, Repr

/-- Group raw tokens into parser tokens, recognising the atom shapes the
synthesizer can produce. -/
def groupToks : List RawTok → Option (List Tok)
  | [] => some []
  | .word "AND" :: rest => (groupToks rest).map (Tok.andT :: ·)
  | .word "OR" :: rest => (groupToks rest).map (Tok.orT :: ·)
  | .lpar :: rest => (groupToks rest).map (Tok.lparT :: ·)
  | .rpar :: rest => (groupToks rest).map (Tok.rparT :: ·)
  | .word "ORDER" :: .word "BY" :: .word "updated" :: .word "DESC" :: rest =>
    (groupToks rest).map (Tok.orderByT :: ·)
  | .word "type" :: .word "=" :: .word "page" :: rest =>
    (groupToks rest).map (Tok.atomT .typePage :: ·)
  | .word "id" :: .word "!=" :: .word p :: rest =>
    (groupToks rest).map (Tok.atomT (.idNe p) :: ·)
  | .word "title" :: .word "~" :: .str w :: rest =>
    (groupToks rest).map (Tok.atomT (.titleLike w) :: ·)
  | .word "labelText" :: .word "=" :: .str l :: rest =>
    (groupToks rest).map (Tok.atomT (.labelText l) :: ·)
  | .word "project" :: .word "=" :: .word pk :: rest =>
    (groupToks rest).map (Tok.atomT (.projIs pk) :: ·)
  | .word "summary" :: .word "~" :: .str w :: rest =>
    (groupToks rest).map (Tok.atomT (.summaryLike w) :: ·)
  | .word "labels" :: .word "=" :: .str l :: rest =>
    (groupToks rest).map (Tok.atomT (.labelsHas l) :: ·)
  | .word "issuekey" :: .word "!=" :: .word k :: rest =>
    (groupToks rest).map (Tok.atomT (.keyNe k) :: ·)
  | _ => none

mutual

/-- `expr := term (OR term)*`, accumulating left-associatively. -/
def parseExpr : Nat → List Tok → Option (QExpr × List Tok)
  | 0, _ => none
  | fuel + 1, ts =>
    match parseTerm fuel ts with
    | some (e, rest) => parseExprTail fuel e rest
    | none => none

/-- Left-recursive tail of `expr`. -/
def parseExprTail : Nat → QExpr → List Tok → Option (QExpr × List Tok)
  | 0, _, _ => none
  | fuel + 1, acc, .orT :: ts =>
    match parseTerm fuel ts with
    | some (e, rest) => parseExprTail fuel (QExpr.or acc e) rest
    | none => none
  | _ + 1, acc, ts => some (acc, ts)

/-- `term := factor (AND factor)*`, accumulating left-associatively. -/
def parseTerm : Nat → List Tok → Option (QExpr × List Tok)
  | 0, _ => none
  | fuel + 1, ts =>
    match parseFactor fuel ts with
    | some (e, rest) => parseTermTail fuel e rest
    | none => none

/-- Left-recursive tail of `term`. -/
def parseTermTail : Nat → QExpr → List Tok → Option (QExpr × List Tok)
  | 0, _, _ => none
  | fuel + 1, acc, .andT :: ts =>
    match parseFactor fuel ts with
    | some (e, rest) => parseTermTail fuel (QExpr.and acc e) rest
    | none => none
  | _ + 1, acc, ts => some (acc, ts)

/-- `factor := ( expr ) | atom`. -/
def parseFactor : Nat → List Tok → Option (QExpr × List Tok)
  | 0, _ => none
  | fuel + 1, .lparT :: ts =>
    match parseExpr fuel ts with
    | some (e, .rparT :: rest) => some (QExpr.group e, rest)
    | _ => none
  | _ + 1, .atomT a :: ts => some (a, ts)
  | _ + 1, _ => none

end

/-- Parse a full query string; a trailing `ORDER BY updated DESC` (JQL) is
accepted after the boolean expression. -/
def parseQuery (s : String) : Option QExpr :=
  match tokenizeRaw (s.data.length + 1) s.data with
  | none => none
  | some raws =>
    match groupToks raws with
    | none => none
    | some ts =>
      match parseExpr (4 * ts.length + 4) ts with
      | some (e, []) => some e
      | some (e, [Tok.orderByT]) => some e
      | _ => none

/-- Evaluate a query string on an item through the reference parser. -/
def evalQueryString (tm : String → String → Bool) (it : Item) (s : String) :
    Option Bool :=
  (parseQuery s).map (evalQ tm it)

/-- The source page used in the C1 counterexample: its own id is `123`, its
title is `meeting notes`, and it carries the label `oncall`. -/
def selfPage : Item :=
  { id := "123", key := "", isPage := true, title := "meeting notes",
    summary := "", projKey := "", labels := ["oncall"] }

/-- The source issue used in witnesses: its own key is `P-1`. -/
def selfIssue : Item :=
  { id := "", key := "P-1", isPage := false, title := "",
    summary := "fix login bug", projKey := "P", labels := ["auth"] }

/-!
## Effect structure of the two related-item operations

The network is modelled by oracles: `fetchResp` is the outcome of the single
item-fetch call, and `search` maps a search request to its outcome.  Each run
records the log lines written by `handleError` (`console.error` in the
source), the value returned or error thrown, and the search requests issued.
Both clients' `handleError` log a classified message and rethrow the original
error unchanged; the nested helper (`getPageById` / `getIssue` /
`searchIssues`) has its own `try/catch` around the same handler, so an error
arising there is handled twice before leaving the outer operation.
-/

deriving instance DecidableEq for Except

/-- The `status`/`statusText` part of an axios error response. -/
structure HttpResp where
  status : Nat
  statusText : String
deriving DecidableEq, Repr

/-- An axios-style error: `response` is present for HTTP-status failures and
absent for transport failures. -/
structure JsError where
  response : Option HttpResp
  message : String
deriving DecidableEq, Repr

/-- `ConfluenceClient.handleError` (source lines 489-507): log a status line
and a classified message (401 and 404 only; no 403 case in this client), then
rethrow the original error. -/
def confluenceHandleError (e : JsError) : List String × JsError :=
  match e.response with
  | some r =>
    let firstLine := "Error: " ++ toString r.status ++ " - " ++ r.statusText
    let extra :=
      if r.status = 401 then
        ["Authentication failed. Please check your email and API token."]
      else if r.status = 404 then
        ["Resource not found. Please check your Confluence domain and the requested resource."]
      else []
    (firstLine :: extra, e)
  | none => (["An unexpected error occurred: " ++ e.message], e)

/-- `JiraClient.handleError` (source lines 451-473): log a status line and a
classified message (401, 403 or 404), then rethrow the original error. -/
def jiraHandleError (e : JsError) : List String × JsError :=
  match e.response with
  | some r =>
    let firstLine := "Error: " ++ toString r.status ++ " - " ++ r.statusText
    let extra :=
      if r.status = 401 then
        ["Authentication failed. Please check your email and API token."]
      else if r.status = 403 then
        ["Permission denied. You do not have access to this resource."]
      else if r.status = 404 then
        ["Resource not found. Please check the requested resource exists."]
      else []
    (firstLine :: extra, e)
  | none => (["An unexpected error occurred: " ++ e.message], e)

/-- A Confluence page as consumed by `getTopicallyRelatedPages`:
`metadataLabels` models `metadata?.labels?.results` mapped to label names
(`none` when the expansion is missing). -/
structure ConfluencePage where
  id : String
  title : String
  metadataLabels : Option (List String)
deriving DecidableEq, Repr

/-- `ConfluencePageListResponse` (types.ts lines 75-84). -/
structure ConfluencePageListResponse where
  results : List ConfluencePage
  start : Nat
  limit : Nat
  size : Nat
deriving DecidableEq, Repr

/-- The parameters of the `GET /content/search` call issued by
`getTopicallyRelatedPages`. -/
structure CqlSearchRequest where
  cql : String
  limit : Nat
  expand : String
deriving DecidableEq, Repr

/-- `getPageById` reduced to its error behaviour: on failure its own
`try/catch` runs `handleError`, which logs and rethrows. -/
def runGetPageById (fetchResp : Except JsError ConfluencePage) :
    List String × Except JsError ConfluencePage :=
  match fetchResp with
  | .ok p => ([], .ok p)
  | .error e =>
    let r := confluenceHandleError e
    (r.1, .error r.2)

/-- The search request `getTopicallyRelatedPages` builds for a fetched source
page: the synthesized CQL, the caller's `limit`, and `expand.join(',')`. -/
def confluenceSearchRequestFor (sourcePage : ConfluencePage) (pageId : String)
    (limit : Nat) (expand : List String) : CqlSearchRequest :=
  { cql := buildDocQuery pageId sourcePage.title (sourcePage.metadataLabels.getD []),
    limit := limit, expand := jsJoin "," expand }

/-- Outcome of one `getTopicallyRelatedPages` run. -/
structure ConfluenceRunResult where
  logs : List String
  result : Except JsError ConfluencePageListResponse
  searchRequests : List CqlSearchRequest
deriving DecidableEq, Repr

/-- `getTopicallyRelatedPages` (source lines 435-487): fetch the source page
through `getPageById` (whose failure is handled there **and** again by this
method's own catch), synthesize the CQL query, issue one search call, and
return the raw response; a search failure is handled once (the search is a
direct `client.get`, not a nested helper). -/
def runGetTopicallyRelatedPages
    (fetchResp : Except JsError ConfluencePage)
    (search : CqlSearchRequest → Except JsError ConfluencePageListResponse)
    (pageId : String) (limit : Nat) (expand : List String) :
    ConfluenceRunResult :=
  match runGetPageById fetchResp with
  | (lg, .error e) =>
    let r := confluenceHandleError e
    { logs := lg ++ r.1, result := .error r.2, searchRequests := [] }
  | (lg, .ok sourcePage) =>
    let req := confluenceSearchRequestFor sourcePage pageId limit expand
    match search req with
    | .ok data => { logs := lg, result := .ok data, searchRequests := [req] }
    | .error e =>
      let r := confluenceHandleError e
      { logs := lg ++ r.1, result := .error r.2, searchRequests := [req] }

/-- The fields of a Jira issue consumed by the embedded operations. -/
structure JiraIssueFields where
  summary : String
  labels : List String
  projectKey : String
  issuetypeName : Option String
deriving DecidableEq, Repr

/-- A Jira issue: its key and the consumed fields. -/
structure JiraIssue where
  key : String
  fields : JiraIssueFields
deriving DecidableEq, Repr

/-- The parameters of the `GET /search` call issued by `searchIssues`. -/
structure JqlSearchRequest where
  jql : String
  startAt : Nat
  maxResults : Nat
deriving DecidableEq, Repr

/-- `JiraSearchResponse` (jiraTypes: `issues`, `maxResults`, `total`,
`startAt`). -/
structure JiraSearchResponse where
  issues : List JiraIssue
  startAt : Nat
  maxResults : Nat
  total : Nat
deriving DecidableEq, Repr

/-- `getIssue` reduced to its error behaviour (its own `try/catch` runs
`handleError`). -/
def runGetIssue (resp : Except JsError JiraIssue) :
    List String × Except JsError JiraIssue :=
  match resp with
  | .ok i => ([], .ok i)
  | .error e =>
    let r := jiraHandleError e
    (r.1, .error r.2)

/-- `searchIssues` reduced to its error behaviour (its own `try/catch` runs
`handleError`). -/
def runSearchIssues (resp : Except JsError JiraSearchResponse) :
    List String × Except JsError JiraSearchResponse :=
  match resp with
  | .ok s => ([], .ok s)
  | .error e =>
    let r := jiraHandleError e
    (r.1, .error r.2)

/-- The search request `getRelatedIssues` builds: the synthesized JQL with the
hard-coded pagination `searchIssues(jql, 0, 10)`. -/
def jiraSearchRequestFor (issue : JiraIssue) (issueKey : String) :
    JqlSearchRequest :=
  { jql := buildJqlQuery issueKey issue.fields.projectKey issue.fields.summary
      issue.fields.labels,
    startAt := 0, maxResults := 10 }

/-- Outcome of one `getRelatedIssues` run. -/
structure JiraRunResult where
  logs : List String
  result : Except JsError (List JiraIssue)
  searchRequests : List JqlSearchRequest
deriving DecidableEq, Repr

/-- `getRelatedIssues` (source lines 379-426): fetch the issue through
`getIssue`, synthesize the JQL, call `searchIssues(jql, 0, 10)` and return
`searchResult.issues`.  Failures of the nested `getIssue` or `searchIssues`
are handled there and again by this method's own catch. -/
def runGetRelatedIssues
    (fetchResp : Except JsError JiraIssue)
    (search : JqlSearchRequest → Except JsError JiraSearchResponse)
    (issueKey : String) : JiraRunResult :=
  match runGetIssue fetchResp with
  | (lg, .error e) =>
    let r := jiraHandleError e
    { logs := lg ++ r.1, result := .error r.2, searchRequests := [] }
  | (lg, .ok issue) =>
    let req := jiraSearchRequestFor issue issueKey
    match runSearchIssues (search req) with
    | (lg2, .error e) =>
      let r := jiraHandleError e
      { logs := lg ++ lg2 ++ r.1, result := .error r.2, searchRequests := [req] }
    | (lg2, .ok sr) =>
      { logs := lg ++ lg2, result := .ok sr.issues, searchRequests := [req] }

/-- `JiraIssueListResponse` (jiraTypes lines 813-822). -/
structure JiraIssueListResponse where
  issues : List JiraIssue
  maxResults : Nat
  total : Nat
  startAt : Nat
deriving DecidableEq, Repr

/-- The post-processing of `getSprintIssues` (source lines 212-239): when a
non-empty `issueTypes` array is supplied, keep only issues whose
`fields.issuetype?.name` is a member, and rebuild the response with the
filtered list via spread (`{ ...response.data, issues }`). -/
def getSprintIssuesFilter (data : JiraIssueListResponse)
    (issueTypes : Option (List String)) : JiraIssueListResponse :=
  let issues := data.issues
  let issues :=
    match issueTypes with
    | some ts =>
      if ts.length > 0 then
        issues.filter (fun issue =>
          match issue.fields.issuetypeName with
          | some n => ts.contains n
          | none => false)
      else issues
    | none => issues
  { data with issues := issues }

/-- The 404 error used in the concrete error-path runs. -/
def err404c : JsError :=
  { response := some { status := 404, statusText := "Not Found" },
    message := "Request failed with status code 404" }

/-- An empty Confluence search response, for concrete runs. -/
def emptyConfluenceList : ConfluencePageListResponse :=
  { results := [], start := 0, limit := 25, size := 0 }

/-- A concrete Jira issue, for concrete runs. -/
def sampleIssue : JiraIssue :=
  { key := "P-1",
    fields := { summary := "fix login bug", labels := ["auth"],
                projectKey := "P", issuetypeName := some "Story" } }

/-- An empty Jira search response, for concrete runs. -/
def emptyJiraSearch : JiraSearchResponse :=
  { issues := [], startAt := 0, maxResults := 10, total := 0 }

/-- The issue-type membership test of `getSprintIssues`:
`issueTypes.includes(issue.fields.issuetype?.name)` (an issue with no
`issuetype` never matches). -/
def issueTypeMatches (ts : List String) (issue : JiraIssue) : Bool :=
  match issue.fields.issuetypeName with
  | some n => ts.contains n
  | none => false

/-- A concrete `Bug` issue for the C10 witness. -/
def bugIssue : JiraIssue :=
  { key := "P-2",
    fields := { summary := "", labels := [], projectKey := "P",
                issuetypeName := some "Bug" } }

/-- A concrete issue without an issue type for the C10 witness. -/
def untypedIssue : JiraIssue :=
  { key := "P-3",
    fields := { summary := "", labels := [], projectKey := "P",
                issuetypeName := none } }

example : extractKeywords "Oncall tips for on-call engineers" =
    ["Oncall", "tips", "oncall", "engineers"] := by decide

example : extractKeywords "" = [] := by decide

example : extractKeywords "  a  b " = [] := by decide

example : buildDocQuery "123" "meeting notes" ["oncall"] =
    "type = page AND id != 123 AND (title ~ \"meeting\" OR title ~ \"notes\") OR (labelText = \"oncall\")" := by
  decide

example : buildDocQuery "123" "" ["oncall"] =
    "type = page AND id != 123 AND (labelText = \"oncall\")" := by decide

example : buildJqlQuery "P-1" "P" "fix login bug" ["auth"] =
    "(project = P OR (summary ~ \"login\") OR (labels = \"auth\")) AND issuekey != P-1 ORDER BY updated DESC" := by
  decide

/-- After filtering with any predicate that rejects the empty token, the
JavaScript split and the spec-side split agree.  Stated for both states of the
`lastWs` flag so the two accumulator passes can be related by induction. -/
theorem jsSplitWsAux_filter_specSplitAux (p : List Char → Bool)
    (hp : p [] = false) :
    ∀ cs : List Char,
      (∀ cur, (jsSplitWsAux cs cur false).filter p = (specSplitAux cs cur).filter p) ∧
      ((jsSplitWsAux cs [] true).filter p = (specSplitAux cs []).filter p) := by
  intro cs
  induction cs with
  | nil =>
    constructor
    · intro cur
      cases cur with
      | nil => simp [jsSplitWsAux, specSplitAux, List.filter, hp]
      | cons a as => simp [jsSplitWsAux, specSplitAux, List.filter]
    · simp [jsSplitWsAux, specSplitAux, List.filter, hp]
  | cons c rest ih =>
    constructor
    · intro cur
      by_cases hws : isJsSpace c = true
      · cases cur with
        | nil =>
          simp only [jsSplitWsAux, specSplitAux, hws, if_true, List.isEmpty_nil]
          simpa [List.filter, hp] using ih.2
        | cons a as =>
          simp only [jsSplitWsAux, specSplitAux, hws, if_true,
            List.isEmpty_cons, List.filter]
          rw [ih.2]
      · simp only [jsSplitWsAux, specSplitAux, hws, if_false,
          Bool.false_eq_true]
        exact ih.1 (c :: cur)
    · by_cases hws : isJsSpace c = true
      · simp only [jsSplitWsAux, specSplitAux, hws, if_true, List.isEmpty_nil]
        exact ih.2
      · simp only [jsSplitWsAux, specSplitAux, hws, if_false,
          Bool.false_eq_true]
        exact ih.1 [c]

/-- The JavaScript split agrees with the spec-side split once tokens of length
at most 3 (in particular, empty tokens) are discarded. -/
theorem jsSplitWs_filter_eq_specSplit (cs : List Char) :
    (jsSplitWs cs).filter (fun t => t.length > 3) =
      (specSplit cs).filter (fun t => t.length > 3) :=
  (jsSplitWsAux_filter_specSplitAux (fun t => t.length > 3) (by decide) cs).1 []

/-- The keyword extractor, rephrased over the spec-side split: take maximal
non-whitespace runs, keep those longer than 3 characters, then strip
punctuation. -/
theorem extractKeywords_eq_spec_pipeline (text : String) :
    extractKeywords text =
      ((specSplit text.data).filter (fun t => t.length > 3)).map
        (fun t => (stripNonWord t).asString) := by
  unfold extractKeywords
  rw [jsSplitWs_filter_eq_specSplit]

/-- A whitespace-only input produces no token of positive length, hence no
keywords. -/
theorem specSplitAux_all_space (cs : List Char) (h : ∀ c ∈ cs, isJsSpace c = true) :
    ∀ cur, specSplitAux cs cur = if cur.isEmpty then [] else [cur.reverse] := by
  induction cs with
  | nil => intro cur; simp [specSplitAux]
  | cons c rest ih =>
    intro cur
    have hc : isJsSpace c = true := h c (List.mem_cons_self c rest)
    have hrest : ∀ d ∈ rest, isJsSpace d = true :=
      fun d hd => h d (List.mem_cons_of_mem c hd)
    cases hcur : cur.isEmpty with
    | true =>
      simp only [specSplitAux, hc, if_true, hcur]
      simpa using ih hrest []
    | false =>
      simp only [specSplitAux, hc, if_true, hcur, if_false]
      rw [ih hrest []]
      simp

/-- A whitespace-only (or empty) input yields no keywords. -/
theorem extractKeywords_of_all_space (text : String)
    (h : ∀ c ∈ text.data, isJsSpace c = true) : extractKeywords text = [] := by
  rw [extractKeywords_eq_spec_pipeline, specSplit,
    specSplitAux_all_space text.data h []]
  simp

/-- C7: the keyword extractor is the three-step pipeline: split on whitespace
runs, discard tokens of length ≤ 3, strip non-word non-whitespace characters
from each survivor.  Order is preserved and duplicates kept (the pipeline is a
`filter` followed by a `map`), no case normalization is applied, and an empty
or whitespace-only input yields the empty sequence. -/
theorem C7_keyword_extractor_pipeline :
    (∀ text : String,
      extractKeywords text =
        ((specSplit text.data).filter (fun t => t.length > 3)).map
          (fun t => (stripNonWord t).asString)) ∧
    (∀ text : String, (∀ c ∈ text.data, isJsSpace c = true) →
      extractKeywords text = []) ∧
    extractKeywords "" = [] ∧
    extractKeywords "word stop word" = ["word", "stop", "word"] ∧
    extractKeywords "MiXeD CaSe" = ["MiXeD", "CaSe"] := by
  refine ⟨extractKeywords_eq_spec_pipeline, extractKeywords_of_all_space,
    ?_, ?_, ?_⟩ <;> decide

/-- Witness for C7 at concrete inputs: the whitespace-only clause applied to a
three-space title. -/
theorem C7_keyword_extractor_pipeline_witness :
    extractKeywords "   " = [] :=
  C7_keyword_extractor_pipeline.2.1 "   " (by decide)

/-- C3 counterexample: the length filter runs before punctuation stripping, so
a stripped keyword may have length ≤ 3 — even length 0.  For the title
`"..... a-b-c"` the extractor emits `""` (from `"....."`, length 5 before
stripping) and `"abc"` (length 3), refuting "every returned keyword has length
strictly greater than 3 after punctuation stripping". -/
theorem C3_counterexample :
    extractKeywords "..... a-b-c" = ["", "abc"] ∧
    ¬ ((("" : String).length > 3)) ∧ ¬ ((("abc" : String).length > 3)) := by
  decide

/-- C3 (amended): every returned keyword is the punctuation-stripped form of a
whitespace-delimited token whose length **before** stripping exceeds 3; after
stripping its length is only bounded above by that pre-strip length (it can be
≤ 3, and even 0). -/
theorem C3_amended_keyword_filter (text k : String)
    (hk : k ∈ extractKeywords text) :
    ∃ t : List Char, t ∈ jsSplitWs text.data ∧ t.length > 3 ∧
      k = (stripNonWord t).asString ∧ k.length ≤ t.length := by
  unfold extractKeywords at hk
  rcases List.mem_map.mp hk with ⟨t, ht, rfl⟩
  rcases List.mem_filter.mp ht with ⟨htmem, htlen⟩
  refine ⟨t, htmem, by simpa using htlen, rfl, ?_⟩
  have h1 : ((stripNonWord t).asString).length = (stripNonWord t).length := by
    simp [String.length, List.asString]
  rw [h1]
  exact List.length_filter_le _ t

/-- Witness for C3 (amended) at the concrete title `"..... a-b-c"` and keyword
`"abc"`. -/
theorem C3_amended_keyword_filter_witness :
    ∃ t : List Char, t ∈ jsSplitWs ("..... a-b-c" : String).data ∧
      t.length > 3 ∧ ("abc" : String) = (stripNonWord t).asString ∧
      ("abc" : String).length ≤ t.length :=
  C3_amended_keyword_filter "..... a-b-c" "abc" (by decide)

/-- C5: when the title yields no keywords (in particular when it is empty or
whitespace-only) and the label list is empty, the synthesized document query is
exactly the base clause `type = page AND id != <identifier>`. -/
theorem C5_empty_signal_fallback :
    (∀ pageId title : String, extractKeywords title = [] →
      buildDocQuery pageId title [] = "type = page AND id != " ++ pageId) ∧
    (∀ pageId : String,
      buildDocQuery pageId "" [] = "type = page AND id != " ++ pageId) ∧
    (∀ pageId title : String, (∀ c ∈ title.data, isJsSpace c = true) →
      buildDocQuery pageId title [] = "type = page AND id != " ++ pageId) := by
  have hbase : ∀ pageId title : String, extractKeywords title = [] →
      buildDocQuery pageId title [] = "type = page AND id != " ++ pageId := by
    intro pageId title h
    simp [buildDocQuery, docQueryOfKeywords, h]
  exact ⟨hbase, fun pageId => hbase pageId "" (by decide),
    fun pageId title h => hbase pageId title (extractKeywords_of_all_space title h)⟩

/-- Witness for C5 at the concrete page id `"123"` with empty and
whitespace-only titles. -/
theorem C5_empty_signal_fallback_witness :
    buildDocQuery "123" "" [] = "type = page AND id != 123" ∧
    buildDocQuery "123" " \t " [] = "type = page AND id != 123" :=
  ⟨C5_empty_signal_fallback.2.1 "123",
   C5_empty_signal_fallback.2.2 "123" " \t " (by decide)⟩

/-- Serialization of an `OR`-chain is a left fold over the serialized often
elements. -/
theorem serializeQ_orChain (es : List QExpr) :
    ∀ e : QExpr, serializeQ (orChain e es) =
      es.foldl (fun a q => a ++ " OR " ++ serializeQ q) (serializeQ e) := by
  induction es with
  | nil => intro e; rfl
  | cons x xs ih =>
    intro e
    show serializeQ (orChain (.or e x) xs) = _
    rw [ih (.or e x)]
    rfl

/-- Pointwise-equal step functions give equal left folds. -/
theorem foldl_congr_fn {α β : Type} (f g : β → α → β) (h : ∀ b a, f b a = g b a) :
    ∀ (l : List α) (b : β), l.foldl f b = l.foldl g b := by
  intro l
  induction l with
  | nil => intro b; rfl
  | cons x xs ih =>
    intro b
    show xs.foldl f (f b x) = xs.foldl g (g b x)
    rw [h]
    exact ih _

/-- Serialization of a mapped `OR`-chain is the JavaScript `join(' OR ')` of
the corresponding clause strings. -/
theorem serializeQ_disj_map (f : String → QExpr) (g : String → String)
    (hfg : ∀ w, serializeQ (f w) = g w) (w : String) (ws : List String) :
    serializeQ (orChain (f w) (ws.map f)) = jsJoin " OR " ((w :: ws).map g) := by
  rw [serializeQ_orChain]
  show _ = (ws.map g).foldl (fun a b => a ++ " OR " ++ b) (g w)
  rw [List.foldl_map, List.foldl_map, hfg]
  exact foldl_congr_fn _ _ (fun b a => by rw [hfg]) ws (g w)

example : parseQuery (buildDocQuery "123" "meeting notes" ["oncall"]) =
    some (docQueryAst "123" ["meeting", "notes"] ["oncall"]) := by decide

example : parseQuery (buildDocQuery "123" "" ["oncall"]) =
    some (docQueryAst "123" [] ["oncall"]) := by decide

example : parseQuery (buildDocQuery "123" "meeting notes" []) =
    some (docQueryAst "123" ["meeting", "notes"] []) := by decide

example : parseQuery (buildDocQuery "123" "" []) =
    some (docQueryAst "123" [] []) := by decide

example : parseQuery (buildJqlQuery "P-1" "P" "fix login bug" ["auth"]) =
    some (jqlQueryAst "P-1" "P" "fix login bug" ["auth"]) := by decide

example : parseQuery (buildJqlQuery "P-1" "P" "" []) =
    some (jqlQueryAst "P-1" "P" "" []) := by decide

/-- Reassociate one step so that two adjacent string literals can be fused. -/
theorem strFuse (a b c x : String) (h : a ++ b = c) : a ++ (b ++ x) = c ++ x := by
  rw [← String.append_assoc, h]

/-- Fuse `" AND " ++ "(" `. -/
theorem fuseAndLpar (x : String) : " AND " ++ ("(" ++ x) = " AND (" ++ x :=
  strFuse _ _ _ x (by decide)

/-- Fuse `" OR " ++ "(" `. -/
theorem fuseOrLpar (x : String) : " OR " ++ ("(" ++ x) = " OR (" ++ x :=
  strFuse _ _ _ x (by decide)

/-- Fuse `")" ++ " OR (" `. -/
theorem fuseRparOrLpar (x : String) : ")" ++ (" OR (" ++ x) = ") OR (" ++ x :=
  strFuse _ _ _ x (by decide)

/-- Fuse `" AND " ++ "issuekey != " `. -/
theorem fuseAndIssue (x : String) :
    " AND " ++ ("issuekey != " ++ x) = " AND issuekey != " ++ x :=
  strFuse _ _ _ x (by decide)

/-- Fuse `")" ++ " AND issuekey != " `. -/
theorem fuseRparAndIssue (x : String) :
    ")" ++ (" AND issuekey != " ++ x) = ") AND issuekey != " ++ x :=
  strFuse _ _ _ x (by decide)

/-- Fuse `"type = page AND " ++ "id != " `. -/
theorem fuseTypeId (x : String) :
    "type = page AND " ++ ("id != " ++ x) = "type = page AND id != " ++ x :=
  strFuse _ _ _ x (by decide)

/-- Fuse `") OR " ++ "(" `. -/
theorem fuseRparOr (x : String) : ") OR " ++ ("(" ++ x) = ") OR (" ++ x :=
  strFuse _ _ _ x (by decide)

/-- Fuse `") AND " ++ "issuekey != " `. -/
theorem fuseRparAnd (x : String) :
    ") AND " ++ ("issuekey != " ++ x) = ") AND issuekey != " ++ x :=
  strFuse _ _ _ x (by decide)

/-- Fuse `")) AND " ++ "issuekey != " `. -/
theorem fuseRparRparAnd (x : String) :
    ")) AND " ++ ("issuekey != " ++ x) = ")) AND issuekey != " ++ x :=
  strFuse _ _ _ x (by decide)

/-- The abstract syntax `docQueryAst` prints back to exactly the string the
source builds. -/
theorem serializeQ_docQueryAst (pid : String) (kws lbls : List String) :
    serializeQ (docQueryAst pid kws lbls) = docQueryOfKeywords pid kws lbls := by
  cases kws with
  | nil =>
    cases lbls with
    | nil =>
      simp [docQueryAst, docQueryOfKeywords, serializeQ, ← String.append_assoc]
    | cons l ls =>
      have hd := serializeQ_disj_map QExpr.labelText labelTextClause
        (fun w => rfl) l ls
      simp only [docQueryAst, serializeQ, hd]
      simp only [docQueryOfKeywords, List.length_nil, List.length_cons,
        Nat.succ_pos, gt_iff_lt, lt_self_iff_false, if_false, if_true,
        ite_true, ite_false, Nat.lt_irrefl]
      simp [String.append_assoc, fuseAndLpar, fuseOrLpar, fuseRparOrLpar,
        fuseTypeId, fuseRparOr]
  | cons w ws =>
    have ht := serializeQ_disj_map QExpr.titleLike titleClause (fun v => rfl) w ws
    cases lbls with
    | nil =>
      simp only [docQueryAst, serializeQ, ht]
      simp only [docQueryOfKeywords, List.length_nil, List.length_cons,
        Nat.succ_pos, gt_iff_lt, lt_self_iff_false, if_false, if_true,
        ite_true, ite_false, Nat.lt_irrefl]
      simp [String.append_assoc, fuseAndLpar, fuseOrLpar, fuseRparOrLpar,
        fuseTypeId, fuseRparOr]
    | cons l ls =>
      have hd := serializeQ_disj_map QExpr.labelText labelTextClause
        (fun v => rfl) l ls
      simp only [docQueryAst, serializeQ, ht, hd]
      simp only [docQueryOfKeywords, List.length_nil, List.length_cons,
        Nat.succ_pos, gt_iff_lt, lt_self_iff_false, if_false, if_true,
        ite_true, ite_false, Nat.lt_irrefl]
      simp [String.append_assoc, fuseAndLpar, fuseOrLpar, fuseRparOrLpar,
        fuseTypeId, fuseRparOr]

/-- The abstract syntax `jqlQueryAst` prints back to exactly the string the
source builds (the `ORDER BY` suffix is outside the boolean expression). -/
theorem serializeQ_jqlQueryAst (key pk summary : String) (lbls : List String) :
    serializeQ (jqlQueryAst key pk summary lbls) ++ " ORDER BY updated DESC" =
      buildJqlQuery key pk summary lbls := by
  by_cases hs : summary = ""
  · subst hs
    cases lbls with
    | nil =>
      simp only [jqlQueryAst, jqlParts, disjOf, orChainL, orChain, serializeQ,
        buildJqlQuery, jsJoin, ne_eq, not_true_eq_false, if_false, ite_false,
        List.length_nil, Nat.lt_irrefl]
      simp [String.append_assoc, fuseAndIssue, fuseRparAndIssue, fuseRparAnd,
          fuseRparRparAnd]
    | cons l ls =>
      have hd := serializeQ_disj_map QExpr.labelsHas labelsClause
        (fun v => rfl) l ls
      simp only [jqlQueryAst, jqlParts, disjOf, orChainL, serializeQ,
        ne_eq, not_true_eq_false, if_false, List.nil_append,
        List.singleton_append, ite_false]
      simp only [serializeQ_orChain, List.foldl_cons, List.foldl_nil,
        serializeQ, hd]
      simp only [buildJqlQuery, jsJoin, ne_eq, not_true_eq_false, if_false,
        ite_false, List.length_cons, Nat.succ_pos, if_true, ite_true,
        gt_iff_lt, List.foldl_cons, List.foldl_nil]
      simp [String.append_assoc, fuseAndIssue, fuseRparAndIssue,
        fuseOrLpar, fuseRparOrLpar, fuseRparOr, fuseRparAnd, fuseRparRparAnd]
  · rcases hkw : extractKeywords summary with _ | ⟨w, ws⟩
    · cases lbls with
      | nil =>
        simp only [jqlQueryAst, jqlParts, disjOf, orChainL, orChain,
          serializeQ, buildJqlQuery, jsJoin, hs, hkw, ne_eq,
          not_false_eq_true, if_true, ite_true, List.length_nil, gt_iff_lt,
          Nat.lt_irrefl, if_false, ite_false, List.nil_append,
          List.append_nil]
        simp [String.append_assoc, fuseAndIssue, fuseRparAndIssue, fuseRparAnd,
          fuseRparRparAnd]
      | cons l ls =>
        have hd := serializeQ_disj_map QExpr.labelsHas labelsClause
          (fun v => rfl) l ls
        simp only [jqlQueryAst, jqlParts, disjOf, orChainL, hs, hkw,
          ne_eq, not_false_eq_true, if_true, ite_true, List.nil_append,
          List.singleton_append]
        simp only [serializeQ_orChain, List.foldl_cons, List.foldl_nil,
          serializeQ, hd]
        simp only [buildJqlQuery, jsJoin, hs, hkw, ne_eq, not_false_eq_true,
          if_true, ite_true, List.length_nil, List.length_cons, gt_iff_lt,
          Nat.lt_irrefl, Nat.succ_pos, if_false, ite_false,
          List.foldl_cons, List.foldl_nil]
        simp [String.append_assoc, fuseAndIssue, fuseRparAndIssue,
          fuseOrLpar, fuseRparOrLpar, fuseRparOr, fuseRparAnd, fuseRparRparAnd]
    · have hw := serializeQ_disj_map QExpr.summaryLike summaryClause
        (fun v => rfl) w ws
      cases lbls with
      | nil =>
        simp only [jqlQueryAst, jqlParts, disjOf, orChainL, hs, hkw,
          ne_eq, not_false_eq_true, if_true, ite_true, List.nil_append,
          List.append_nil, List.singleton_append]
        simp only [serializeQ_orChain, List.foldl_cons, List.foldl_nil,
          serializeQ, hw]
        simp only [buildJqlQuery, jsJoin, hs, hkw, ne_eq, not_false_eq_true,
          if_true, ite_true, List.length_nil, List.length_cons, gt_iff_lt,
          Nat.lt_irrefl, Nat.succ_pos, if_false, ite_false,
          List.foldl_cons, List.foldl_nil]
        simp [String.append_assoc, fuseAndIssue, fuseRparAndIssue,
          fuseOrLpar, fuseRparOrLpar, fuseRparOr, fuseRparAnd, fuseRparRparAnd]
      | cons l ls =>
        have hd := serializeQ_disj_map QExpr.labelsHas labelsClause
          (fun v => rfl) l ls
        simp only [jqlQueryAst, jqlParts, disjOf, orChainL, hs, hkw,
          ne_eq, not_false_eq_true, if_true, ite_true, List.nil_append,
          List.singleton_append, List.cons_append]
        simp only [serializeQ_orChain, List.foldl_cons, List.foldl_nil,
          serializeQ, hw, hd]
        simp only [buildJqlQuery, jsJoin, hs, hkw, ne_eq, not_false_eq_true,
          if_true, ite_true, List.length_nil, List.length_cons, gt_iff_lt,
          Nat.lt_irrefl, Nat.succ_pos, if_false, ite_false,
          List.foldl_cons, List.foldl_nil]
        simp [String.append_assoc, fuseAndIssue, fuseRparAndIssue,
          fuseOrLpar, fuseRparOrLpar, fuseRparOr, fuseRparAnd, fuseRparRparAnd]

/-- An issue whose key equals the excluded key falsifies the synthesized JQL
expression: the `issuekey != <key>` conjunct guards the whole disjunction. -/
theorem evalQ_jqlQueryAst_self (tm : String → String → Bool) (it : Item)
    (key pk summary : String) (lbls : List String) (h : it.key = key) :
    evalQ tm it (jqlQueryAst key pk summary lbls) = false := by
  subst h
  simp [jqlQueryAst, evalQ]

/-- In the document variant, whenever keywords or labels are absent the whole
expression is a conjunction containing `id != <pid>`, so the source page
falsifies it. -/
theorem evalQ_docQueryAst_self (tm : String → String → Bool) (it : Item)
    (pid : String) (kws lbls : List String) (hid : it.id = pid)
    (h : kws = [] ∨ lbls = []) :
    evalQ tm it (docQueryAst pid kws lbls) = false := by
  subst hid
  rcases h with h | h
  · subst h; cases lbls <;> simp [docQueryAst, evalQ]
  · subst h; cases kws <;> simp [docQueryAst, evalQ]

/-- Fuse `"(" ++ "project = " `. -/
theorem fuseLparProject (x : String) :
    "(" ++ ("project = " ++ x) = "(project = " ++ x :=
  strFuse _ _ _ x (by decide)

/-- Fuse `")" ++ ") AND issuekey != " `. -/
theorem fuseRparsAndIssue (x : String) :
    ")" ++ (") AND issuekey != " ++ x) = ")) AND issuekey != " ++ x :=
  strFuse _ _ _ x (by decide)

/-- The base clause is always a prefix of the synthesized document query, so
the query always contains the exclusion clause `id != <pageId>`. -/
theorem docQueryOfKeywords_base_prefix (pid : String) (kws lbls : List String) :
    ∃ post : String, docQueryOfKeywords pid kws lbls =
      ("type = page AND id != " ++ pid) ++ post := by
  cases kws with
  | nil =>
    cases lbls with
    | nil =>
      refine ⟨"", ?_⟩
      rw [String.append_empty]
      rfl
    | cons l ls =>
      refine ⟨" AND (" ++ jsJoin " OR " ((l :: ls).map labelTextClause) ++ ")", ?_⟩
      simp [docQueryOfKeywords, Nat.succ_pos, String.append_assoc]
  | cons w ws =>
    cases lbls with
    | nil =>
      refine ⟨" AND (" ++ jsJoin " OR " ((w :: ws).map titleClause) ++ ")", ?_⟩
      simp [docQueryOfKeywords, Nat.succ_pos, String.append_assoc]
    | cons l ls =>
      refine ⟨" AND (" ++ jsJoin " OR " ((w :: ws).map titleClause) ++ ")" ++
        " OR (" ++ jsJoin " OR " ((l :: ls).map labelTextClause) ++ ")", ?_⟩
      simp [docQueryOfKeywords, Nat.succ_pos, String.append_assoc,
        fuseRparOrLpar]

/-- C1 counterexample: for a page with keywords and labels both present, the
synthesized CQL is `type = page AND id != 123 AND (…) OR (labelText = …)`.
Under CQL precedence (`AND` binds tighter than `OR`) this is a top-level
disjunction whose right branch is not guarded by `id != 123`, and the source
page carries its own labels, so the page itself satisfies the expression (even
when the `~` matcher rejects every title term).  The reference parser
certifies the reading of the string. -/
theorem C1_counterexample :
    buildDocQuery "123" "meeting notes" ["oncall"] =
      "type = page AND id != 123 AND (title ~ \"meeting\" OR title ~ \"notes\") OR (labelText = \"oncall\")" ∧
    selfPage.id = "123" ∧
    evalQueryString (fun _ _ => false) selfPage
      (buildDocQuery "123" "meeting notes" ["oncall"]) = some true := by
  refine ⟨by decide, rfl, by decide⟩

/-- C1 (amended): the synthesized expression always contains the clause
excluding the source item's identifier (first two conjuncts); the source item
never satisfies the issue-variant expression; and in the document variant the
source item never satisfies the expression **when keywords or labels are
absent** — the case with both present is the counterexample above.  The last
two conjuncts certify that the abstract syntax used for evaluation prints back
to exactly the synthesized strings. -/
theorem C1_amended_exclusion :
    (∀ pid title : String, ∀ lbls : List String, ∃ post : String,
      buildDocQuery pid title lbls = ("type = page AND id != " ++ pid) ++ post) ∧
    (∀ key pk summary : String, ∀ lbls : List String, ∃ pre : String,
      buildJqlQuery key pk summary lbls =
        pre ++ ") AND issuekey != " ++ key ++ " ORDER BY updated DESC") ∧
    (∀ (tm : String → String → Bool) (it : Item) (key pk summary : String)
        (lbls : List String), it.key = key →
      evalQ tm it (jqlQueryAst key pk summary lbls) = false) ∧
    (∀ (tm : String → String → Bool) (it : Item) (pid : String)
        (kws lbls : List String), it.id = pid → kws = [] ∨ lbls = [] →
      evalQ tm it (docQueryAst pid kws lbls) = false) ∧
    (∀ pid : String, ∀ kws lbls : List String,
      serializeQ (docQueryAst pid kws lbls) = docQueryOfKeywords pid kws lbls) ∧
    (∀ key pk summary : String, ∀ lbls : List String,
      serializeQ (jqlQueryAst key pk summary lbls) ++ " ORDER BY updated DESC" =
        buildJqlQuery key pk summary lbls) := by
  refine ⟨fun pid title lbls => docQueryOfKeywords_base_prefix pid _ lbls,
    fun key pk summary lbls => ⟨_, rfl⟩,
    evalQ_jqlQueryAst_self, evalQ_docQueryAst_self,
    serializeQ_docQueryAst, serializeQ_jqlQueryAst⟩

/-- Witness for C1 (amended) at concrete inputs: the issue `P-1` falsifies its
own synthesized JQL expression, and page `123` falsifies its synthesized CQL
expression when it has no keywords. -/
theorem C1_amended_exclusion_witness :
    evalQ (fun _ _ => true) selfIssue
      (jqlQueryAst "P-1" "P" "fix login bug" ["auth"]) = false ∧
    evalQ (fun _ _ => true) selfPage (docQueryAst "123" [] ["oncall"]) = false :=
  ⟨C1_amended_exclusion.2.2.1 (fun _ _ => true) selfIssue "P-1" "P"
      "fix login bug" ["auth"] rfl,
   C1_amended_exclusion.2.2.2.1 (fun _ _ => true) selfPage "123" [] ["oncall"]
      rfl (Or.inl rfl)⟩

/-- C2: in the document-variant synthesis, when keywords and labels are both
present the label disjunction is appended with `' OR '` (onto the query built
for the keywords alone), and when keywords are absent it is appended with
`' AND '` onto the base clause; including the two concrete instances the
specification names. -/
theorem C2_broaden_narrow_branch :
    buildDocQuery "123" "meeting notes" ["oncall"] =
      docQueryOfKeywords "123" ["meeting", "notes"] ["oncall"] ∧
    docQueryOfKeywords "123" ["meeting", "notes"] ["oncall"] =
      "type = page AND id != 123 AND (title ~ \"meeting\" OR title ~ \"notes\") OR (labelText = \"oncall\")" ∧
    docQueryOfKeywords "123" [] ["oncall"] =
      "type = page AND id != 123 AND (labelText = \"oncall\")" ∧
    (∀ (pid : String) (kws lbls : List String), kws ≠ [] → lbls ≠ [] →
      docQueryOfKeywords pid kws lbls =
        docQueryOfKeywords pid kws [] ++ " OR (" ++
          jsJoin " OR " (lbls.map labelTextClause) ++ ")") ∧
    (∀ (pid : String) (lbls : List String), lbls ≠ [] →
      docQueryOfKeywords pid [] lbls =
        ("type = page AND id != " ++ pid) ++ " AND (" ++
          jsJoin " OR " (lbls.map labelTextClause) ++ ")") := by
  refine ⟨by decide, by decide, by decide, ?_, ?_⟩
  · intro pid kws lbls hk hl
    cases kws with
    | nil => exact absurd rfl hk
    | cons w ws =>
      cases lbls with
      | nil => exact absurd rfl hl
      | cons l ls =>
        simp [docQueryOfKeywords, Nat.succ_pos, String.append_assoc,
          fuseRparOrLpar]
  · intro pid lbls hl
    cases lbls with
    | nil => exact absurd rfl hl
    | cons l ls =>
      simp [docQueryOfKeywords, Nat.succ_pos, String.append_assoc]

/-- Witness for C2 at concrete inputs: the OR branch at keywords `["abcd"]`
and labels `["x"]`, and the AND branch at labels `["x"]`. -/
theorem C2_broaden_narrow_branch_witness :
    docQueryOfKeywords "1" ["abcd"] ["x"] =
      docQueryOfKeywords "1" ["abcd"] [] ++ " OR (" ++
        jsJoin " OR " (["x"].map labelTextClause) ++ ")" ∧
    docQueryOfKeywords "1" [] ["x"] =
      ("type = page AND id != " ++ "1") ++ " AND (" ++
        jsJoin " OR " (["x"].map labelTextClause) ++ ")" :=
  ⟨C2_broaden_narrow_branch.2.2.2.1 "1" ["abcd"] ["x"] (by decide) (by decide),
   C2_broaden_narrow_branch.2.2.2.2 "1" ["x"] (by decide)⟩

/-- C4: the synthesized JQL is the parenthesized top-level disjunction of the
project clause, the summary-keyword disjunction (when the summary yields
keywords), and the shared-label disjunction (when labels exist), conjoined
with `issuekey != <key>` and suffixed with `ORDER BY updated DESC`; spelled
out in all four cases, and tied to the abstract syntax. -/
theorem C4_jql_top_level_structure :
    (∀ key pk summary : String, ∀ lbls : List String,
      buildJqlQuery key pk summary lbls =
        serializeQ (jqlQueryAst key pk summary lbls) ++ " ORDER BY updated DESC") ∧
    (∀ key pk summary : String, ∀ lbls : List String, ∃ d : QExpr,
      jqlQueryAst key pk summary lbls = QExpr.and (.group d) (.keyNe key)) ∧
    (∀ key pk summary : String,
      (summary = "" ∨ extractKeywords summary = []) →
      buildJqlQuery key pk summary [] =
        "(project = " ++ pk ++ ") AND issuekey != " ++ key ++
          " ORDER BY updated DESC") ∧
    (∀ key pk summary w : String, ∀ ws : List String,
      extractKeywords summary = w :: ws → summary ≠ "" →
      buildJqlQuery key pk summary [] =
        "(project = " ++ pk ++ " OR (" ++
          jsJoin " OR " ((w :: ws).map summaryClause) ++
          ")) AND issuekey != " ++ key ++ " ORDER BY updated DESC") ∧
    (∀ key pk summary l : String, ∀ ls : List String,
      (summary = "" ∨ extractKeywords summary = []) →
      buildJqlQuery key pk summary (l :: ls) =
        "(project = " ++ pk ++ " OR (" ++
          jsJoin " OR " ((l :: ls).map labelsClause) ++
          ")) AND issuekey != " ++ key ++ " ORDER BY updated DESC") ∧
    (∀ key pk summary w l : String, ∀ ws ls : List String,
      extractKeywords summary = w :: ws → summary ≠ "" →
      buildJqlQuery key pk summary (l :: ls) =
        "(project = " ++ pk ++ " OR (" ++
          jsJoin " OR " ((w :: ws).map summaryClause) ++ ") OR (" ++
          jsJoin " OR " ((l :: ls).map labelsClause) ++
          ")) AND issuekey != " ++ key ++ " ORDER BY updated DESC") := by
  refine ⟨fun key pk summary lbls => (serializeQ_jqlQueryAst key pk summary lbls).symm,
    fun key pk summary lbls => ⟨_, rfl⟩, ?_, ?_, ?_, ?_⟩
  · intro key pk summary h
    rcases h with h | h
    · subst h
      simp [buildJqlQuery, jsJoin, String.append_assoc, fuseLparProject,
        fuseRparAnd]
    · by_cases hs : summary = ""
      · subst hs
        simp [buildJqlQuery, jsJoin, String.append_assoc, fuseLparProject,
          fuseRparAnd]
      · simp [buildJqlQuery, hs, h, jsJoin, String.append_assoc,
          fuseLparProject, fuseRparAnd]
  · intro key pk summary w ws hkw hs
    simp only [buildJqlQuery, hs, hkw, ne_eq, not_false_eq_true, if_true,
      ite_true, List.length_cons, List.length_nil, gt_iff_lt, Nat.succ_pos,
      Nat.lt_irrefl, if_false, ite_false, List.singleton_append, jsJoin,
      List.foldl_cons, List.foldl_nil]
    simp [String.append_assoc, fuseLparProject, fuseOrLpar, fuseRparOr,
      fuseRparOrLpar, fuseRparsAndIssue, fuseRparAnd, fuseRparRparAnd]
  · intro key pk summary l ls h
    rcases h with h | h
    · subst h
      simp only [buildJqlQuery, ne_eq, not_true_eq_false, if_false,
        ite_false, List.length_cons, gt_iff_lt, Nat.succ_pos, if_true,
        ite_true, List.singleton_append, jsJoin, List.foldl_cons,
        List.foldl_nil]
      simp [String.append_assoc, fuseLparProject, fuseOrLpar, fuseRparOr,
        fuseRparOrLpar, fuseRparsAndIssue, fuseRparAnd, fuseRparRparAnd]
    · by_cases hs : summary = ""
      · subst hs
        simp only [buildJqlQuery, ne_eq, not_true_eq_false, if_false,
          ite_false, List.length_cons, gt_iff_lt, Nat.succ_pos, if_true,
          ite_true, List.singleton_append, jsJoin, List.foldl_cons,
          List.foldl_nil]
        simp [String.append_assoc, fuseLparProject, fuseOrLpar, fuseRparOr,
          fuseRparOrLpar, fuseRparsAndIssue, fuseRparAnd, fuseRparRparAnd]
      · simp only [buildJqlQuery, hs, h, ne_eq, not_false_eq_true, if_true,
          ite_true, List.length_nil, List.length_cons, gt_iff_lt,
          Nat.lt_irrefl, Nat.succ_pos, if_false, ite_false,
          List.singleton_append, jsJoin, List.foldl_cons, List.foldl_nil]
        simp [String.append_assoc, fuseLparProject, fuseOrLpar, fuseRparOr,
          fuseRparOrLpar, fuseRparsAndIssue, fuseRparAnd, fuseRparRparAnd]
  · intro key pk summary w l ws ls hkw hs
    simp only [buildJqlQuery, hs, hkw, ne_eq, not_false_eq_true, if_true,
      ite_true, List.length_cons, gt_iff_lt, Nat.succ_pos,
      List.singleton_append, List.cons_append, List.nil_append, jsJoin,
      List.foldl_cons, List.foldl_nil]
    simp [String.append_assoc, fuseLparProject, fuseOrLpar, fuseRparOr,
      fuseRparOrLpar, fuseRparsAndIssue, fuseRparAnd, fuseRparRparAnd]

/-- Witness for C4 at concrete inputs: the all-signals case for issue `P-1`
and the no-signal case. -/
theorem C4_jql_top_level_structure_witness :
    buildJqlQuery "P-1" "P" "fix login bug" ["auth"] =
      "(project = " ++ "P" ++ " OR (" ++
        jsJoin " OR " ((["login"] : List String).map summaryClause) ++ ") OR (" ++
        jsJoin " OR " ((["auth"] : List String).map labelsClause) ++
        ")) AND issuekey != " ++ "P-1" ++ " ORDER BY updated DESC" ∧
    buildJqlQuery "P-1" "P" "" [] =
      "(project = " ++ "P" ++ ") AND issuekey != " ++ "P-1" ++
        " ORDER BY updated DESC" :=
  ⟨C4_jql_top_level_structure.2.2.2.2.2 "P-1" "P" "fix login bug" "login"
      "auth" [] [] (by decide) (by decide),
   C4_jql_top_level_structure.2.2.1 "P-1" "P" "" (Or.inl rfl)⟩

/-- `handleError` rethrows exactly the error it received (Confluence client). -/
theorem confluenceHandleError_snd (e : JsError) :
    (confluenceHandleError e).2 = e := by
  rcases e with ⟨resp, msg⟩
  cases resp <;> rfl

/-- `handleError` rethrows exactly the error it received (Jira client). -/
theorem jiraHandleError_snd (e : JsError) : (jiraHandleError e).2 = e := by
  rcases e with ⟨resp, msg⟩
  cases resp <;> rfl

/-- C8: a failing item fetch aborts the whole operation before any search
call (zero search requests), the raised error is the fetch error itself (for a
404 the classified not-found message is logged), a failing search call aborts
with that error, and a successful fetch issues exactly one search request —
so no failure is swallowed and no partial result is returned, in either
variant. -/
theorem C8_failure_short_circuit :
    (∀ (e : JsError)
        (search : CqlSearchRequest → Except JsError ConfluencePageListResponse)
        (pageId : String) (limit : Nat) (expand : List String),
      (runGetTopicallyRelatedPages (.error e) search pageId limit expand).searchRequests = [] ∧
      (runGetTopicallyRelatedPages (.error e) search pageId limit expand).result = .error e) ∧
    (∀ (e : JsError) (st : String)
        (search : CqlSearchRequest → Except JsError ConfluencePageListResponse)
        (pageId : String) (limit : Nat) (expand : List String),
      e.response = some { status := 404, statusText := st } →
      "Resource not found. Please check your Confluence domain and the requested resource." ∈
        (runGetTopicallyRelatedPages (.error e) search pageId limit expand).logs) ∧
    (∀ (sourcePage : ConfluencePage)
        (search : CqlSearchRequest → Except JsError ConfluencePageListResponse)
        (pageId : String) (limit : Nat) (expand : List String) (e : JsError),
      search (confluenceSearchRequestFor sourcePage pageId limit expand) = .error e →
      (runGetTopicallyRelatedPages (.ok sourcePage) search pageId limit expand).result = .error e) ∧
    (∀ (sourcePage : ConfluencePage)
        (search : CqlSearchRequest → Except JsError ConfluencePageListResponse)
        (pageId : String) (limit : Nat) (expand : List String),
      (runGetTopicallyRelatedPages (.ok sourcePage) search pageId limit expand).searchRequests =
        [confluenceSearchRequestFor sourcePage pageId limit expand]) ∧
    (∀ (e : JsError) (search : JqlSearchRequest → Except JsError JiraSearchResponse)
        (issueKey : String),
      (runGetRelatedIssues (.error e) search issueKey).searchRequests = [] ∧
      (runGetRelatedIssues (.error e) search issueKey).result = .error e) ∧
    (∀ (e : JsError) (st : String)
        (search : JqlSearchRequest → Except JsError JiraSearchResponse)
        (issueKey : String),
      e.response = some { status := 404, statusText := st } →
      "Resource not found. Please check the requested resource exists." ∈
        (runGetRelatedIssues (.error e) search issueKey).logs) ∧
    (∀ (issue : JiraIssue)
        (search : JqlSearchRequest → Except JsError JiraSearchResponse)
        (issueKey : String) (e : JsError),
      search (jiraSearchRequestFor issue issueKey) = .error e →
      (runGetRelatedIssues (.ok issue) search issueKey).result = .error e) ∧
    (∀ (issue : JiraIssue)
        (search : JqlSearchRequest → Except JsError JiraSearchResponse)
        (issueKey : String),
      (runGetRelatedIssues (.ok issue) search issueKey).searchRequests =
        [jiraSearchRequestFor issue issueKey]) := by
  refine ⟨?_, ?_, ?_, ?_, ?_, ?_, ?_, ?_⟩
  · intro e search pageId limit expand
    constructor <;>
      simp [runGetTopicallyRelatedPages, runGetPageById,
        confluenceHandleError_snd]
  · intro e st search pageId limit expand h
    rcases e with ⟨resp, msg⟩
    simp only at h
    subst h
    simp [runGetTopicallyRelatedPages, runGetPageById, confluenceHandleError]
  · intro sourcePage search pageId limit expand e h
    simp [runGetTopicallyRelatedPages, runGetPageById, h,
      confluenceHandleError_snd]
  · intro sourcePage search pageId limit expand
    cases hse : search (confluenceSearchRequestFor sourcePage pageId limit expand) <;>
      simp [runGetTopicallyRelatedPages, runGetPageById, hse]
  · intro e search issueKey
    constructor <;>
      simp [runGetRelatedIssues, runGetIssue, jiraHandleError_snd]
  · intro e st search issueKey h
    rcases e with ⟨resp, msg⟩
    simp only at h
    subst h
    simp [runGetRelatedIssues, runGetIssue, jiraHandleError]
  · intro issue search issueKey e h
    simp [runGetRelatedIssues, runGetIssue, runSearchIssues, h,
      jiraHandleError_snd]
  · intro issue search issueKey
    cases hse : search (jiraSearchRequestFor issue issueKey) <;>
      simp [runGetRelatedIssues, runGetIssue, runSearchIssues, hse]

/-- Witness for C8 at concrete inputs: a 404 fetch failure short-circuits the
document variant with the classified log line and no search call. -/
theorem C8_failure_short_circuit_witness :
    ((runGetTopicallyRelatedPages (.error err404c)
        (fun _ => .ok emptyConfluenceList) "123" 10 ["body.storage"]).searchRequests = [] ∧
     (runGetTopicallyRelatedPages (.error err404c)
        (fun _ => .ok emptyConfluenceList) "123" 10 ["body.storage"]).result = .error err404c) ∧
    "Resource not found. Please check your Confluence domain and the requested resource." ∈
      (runGetTopicallyRelatedPages (.error err404c)
        (fun _ => .ok emptyConfluenceList) "123" 10 ["body.storage"]).logs :=
  ⟨C8_failure_short_circuit.1 err404c (fun _ => .ok emptyConfluenceList)
      "123" 10 ["body.storage"],
   C8_failure_short_circuit.2.1 err404c "Not Found"
      (fun _ => .ok emptyConfluenceList) "123" 10 ["body.storage"] rfl⟩

/-- C9 counterexample: for a 404 failure of the item fetch, the composed
document operation logs the classified not-found message **twice** (once in
`getPageById`'s catch, once in `getTopicallyRelatedPages`'s catch), and the
error re-raised to the caller is the raw underlying error — its message is the
axios message, not the friendlier classified one.  This refutes both "caught
exactly once" and "the re-raised error value carries a friendlier, classified
message rather than the raw underlying error". -/
theorem C9_counterexample :
    (runGetTopicallyRelatedPages (.error err404c)
        (fun _ => .ok emptyConfluenceList) "123" 10 ["body.storage"]).result =
      .error err404c ∧
    ((runGetTopicallyRelatedPages (.error err404c)
        (fun _ => .ok emptyConfluenceList) "123" 10 ["body.storage"]).logs.count
      "Resource not found. Please check your Confluence domain and the requested resource.") = 2 ∧
    err404c.message ≠
      "Resource not found. Please check your Confluence domain and the requested resource." := by
  refine ⟨by decide, by decide, by decide⟩

/-- C9 (amended): every failure is logged with a classified, friendlier
message — the status line always, then authentication for 401, permission for
403 (Jira client only; the Confluence client logs no extra line for 403),
not-found for 404, and the transport message when no response exists — and the
error re-raised to the caller is the original error unchanged; when the
failure arises in the nested fetch helper (or nested `searchIssues`), it is
caught and logged twice before reaching the caller. -/
theorem C9_amended_error_handling :
    (∀ e : JsError, (confluenceHandleError e).2 = e) ∧
    (∀ e : JsError, (jiraHandleError e).2 = e) ∧
    (∀ (e : JsError) (r : HttpResp), e.response = some r → r.status = 401 →
      (confluenceHandleError e).1 =
        ["Error: " ++ toString r.status ++ " - " ++ r.statusText,
         "Authentication failed. Please check your email and API token."]) ∧
    (∀ (e : JsError) (r : HttpResp), e.response = some r → r.status = 404 →
      (confluenceHandleError e).1 =
        ["Error: " ++ toString r.status ++ " - " ++ r.statusText,
         "Resource not found. Please check your Confluence domain and the requested resource."]) ∧
    (∀ (e : JsError) (r : HttpResp), e.response = some r → r.status = 403 →
      (confluenceHandleError e).1 =
        ["Error: " ++ toString r.status ++ " - " ++ r.statusText]) ∧
    (∀ (e : JsError) (r : HttpResp), e.response = some r → r.status = 403 →
      (jiraHandleError e).1 =
        ["Error: " ++ toString r.status ++ " - " ++ r.statusText,
         "Permission denied. You do not have access to this resource."]) ∧
    (∀ (e : JsError) (r : HttpResp), e.response = some r →
      r.status ≠ 401 → r.status ≠ 403 → r.status ≠ 404 →
      (confluenceHandleError e).1 =
        ["Error: " ++ toString r.status ++ " - " ++ r.statusText] ∧
      (jiraHandleError e).1 =
        ["Error: " ++ toString r.status ++ " - " ++ r.statusText]) ∧
    (∀ e : JsError, e.response = none →
      (confluenceHandleError e).1 =
        ["An unexpected error occurred: " ++ e.message] ∧
      (jiraHandleError e).1 =
        ["An unexpected error occurred: " ++ e.message]) ∧
    (∀ (e : JsError)
        (search : CqlSearchRequest → Except JsError ConfluencePageListResponse)
        (pageId : String) (limit : Nat) (expand : List String),
      (runGetTopicallyRelatedPages (.error e) search pageId limit expand).logs =
        (confluenceHandleError e).1 ++ (confluenceHandleError e).1) ∧
    (∀ (e : JsError) (search : JqlSearchRequest → Except JsError JiraSearchResponse)
        (issueKey : String),
      (runGetRelatedIssues (.error e) search issueKey).logs =
        (jiraHandleError e).1 ++ (jiraHandleError e).1) ∧
    (∀ (issue : JiraIssue)
        (search : JqlSearchRequest → Except JsError JiraSearchResponse)
        (issueKey : String) (e : JsError),
      search (jiraSearchRequestFor issue issueKey) = .error e →
      (runGetRelatedIssues (.ok issue) search issueKey).logs =
        (jiraHandleError e).1 ++ (jiraHandleError e).1) := by
  refine ⟨confluenceHandleError_snd, jiraHandleError_snd,
    ?_, ?_, ?_, ?_, ?_, ?_, ?_, ?_, ?_⟩
  · intro e r h hs
    rcases e with ⟨resp, msg⟩
    simp only at h
    subst h
    simp [confluenceHandleError, hs]
  · intro e r h hs
    rcases e with ⟨resp, msg⟩
    simp only at h
    subst h
    rcases r with ⟨st, sx⟩
    simp only at hs
    subst hs
    simp [confluenceHandleError]
  · intro e r h hs
    rcases e with ⟨resp, msg⟩
    simp only at h
    subst h
    rcases r with ⟨st, sx⟩
    simp only at hs
    subst hs
    simp [confluenceHandleError]
  · intro e r h hs
    rcases e with ⟨resp, msg⟩
    simp only at h
    subst h
    rcases r with ⟨st, sx⟩
    simp only at hs
    subst hs
    simp [jiraHandleError]
  · intro e r h h1 h3 h4
    rcases e with ⟨resp, msg⟩
    simp only at h
    subst h
    constructor <;> simp [confluenceHandleError, jiraHandleError, h1, h3, h4]
  · intro e h
    rcases e with ⟨resp, msg⟩
    simp only at h
    subst h
    constructor <;> simp [confluenceHandleError, jiraHandleError]
  · intro e search pageId limit expand
    simp [runGetTopicallyRelatedPages, runGetPageById, confluenceHandleError_snd]
  · intro e search issueKey
    simp [runGetRelatedIssues, runGetIssue, jiraHandleError_snd]
  · intro issue search issueKey e h
    simp [runGetRelatedIssues, runGetIssue, runSearchIssues, h,
      jiraHandleError_snd]

/-- Witness for C9 (amended) at concrete inputs: the classified 404 line of
the Confluence handler and the doubled log of the composed run. -/
theorem C9_amended_error_handling_witness :
    (confluenceHandleError err404c).1 =
      ["Error: " ++ toString (404 : Nat) ++ " - " ++ "Not Found",
       "Resource not found. Please check your Confluence domain and the requested resource."] ∧
    (runGetTopicallyRelatedPages (.error err404c)
        (fun _ => .ok emptyConfluenceList) "123" 10 ["body.storage"]).logs =
      (confluenceHandleError err404c).1 ++ (confluenceHandleError err404c).1 :=
  ⟨C9_amended_error_handling.2.2.2.1 err404c
      { status := 404, statusText := "Not Found" } rfl rfl,
   C9_amended_error_handling.2.2.2.2.2.2.2.2.1 err404c
      (fun _ => .ok emptyConfluenceList) "123" 10 ["body.storage"]⟩

/-- C6 counterexample: the issue variant's public signature is
`getRelatedIssues(issueKey)` — there is no limit or expand parameter — and
every run issues its single search request with the hard-coded pagination
`startAt = 0, maxResults = 10`.  A caller wanting at most 3 results cannot be
honoured (the request asks for 10 > 3), refuting "the feature's public
signature accepts the limit (and expand fields) from the caller in both the
document and issue variants". -/
theorem C6_counterexample :
    ((runGetRelatedIssues (.ok sampleIssue) (fun _ => .ok emptyJiraSearch)
        "P-1").searchRequests.map (fun r => (r.startAt, r.maxResults))) =
      [(0, 10)] ∧
    ¬ ((10 : Nat) ≤ 3) := by
  refine ⟨by decide, by decide⟩

/-- C6 (amended): the document variant accepts `limit` and `expand` and passes
the caller's `limit` through as the search request's limit, returning the
remote page unchanged (so when the search endpoint honours its limit the
returned result list has length ≤ N); the issue variant accepts only the issue
key and always requests `startAt 0, maxResults 10`, returning at most 10
issues under the same assumption. -/
theorem C6_amended_result_bounding :
    (∀ (sourcePage : ConfluencePage)
        (search : CqlSearchRequest → Except JsError ConfluencePageListResponse)
        (pageId : String) (n : Nat) (expand : List String),
      ∀ req ∈ (runGetTopicallyRelatedPages (.ok sourcePage) search pageId n expand).searchRequests,
        req.limit = n) ∧
    (∀ (sourcePage : ConfluencePage)
        (search : CqlSearchRequest → Except JsError ConfluencePageListResponse)
        (pageId : String) (n : Nat) (expand : List String)
        (data : ConfluencePageListResponse),
      (∀ req r, search req = .ok r → r.results.length ≤ req.limit) →
      (runGetTopicallyRelatedPages (.ok sourcePage) search pageId n expand).result = .ok data →
      data.results.length ≤ n) ∧
    (∀ (fetchResp : Except JsError JiraIssue)
        (search : JqlSearchRequest → Except JsError JiraSearchResponse)
        (issueKey : String),
      ∀ req ∈ (runGetRelatedIssues fetchResp search issueKey).searchRequests,
        req.maxResults = 10 ∧ req.startAt = 0) ∧
    (∀ (issue : JiraIssue)
        (search : JqlSearchRequest → Except JsError JiraSearchResponse)
        (issueKey : String) (issues : List JiraIssue),
      (∀ req r, search req = .ok r → r.issues.length ≤ req.maxResults) →
      (runGetRelatedIssues (.ok issue) search issueKey).result = .ok issues →
      issues.length ≤ 10) := by
  refine ⟨?_, ?_, ?_, ?_⟩
  · intro sourcePage search pageId n expand req hreq
    cases hse : search (confluenceSearchRequestFor sourcePage pageId n expand) <;>
      simp [runGetTopicallyRelatedPages, runGetPageById, hse] at hreq <;>
      simp [hreq, confluenceSearchRequestFor]
  · intro sourcePage search pageId n expand data hbound hres
    cases hse : search (confluenceSearchRequestFor sourcePage pageId n expand) with
    | error e =>
      simp [runGetTopicallyRelatedPages, runGetPageById, hse] at hres
    | ok found =>
      simp [runGetTopicallyRelatedPages, runGetPageById, hse] at hres
      subst hres
      simpa [confluenceSearchRequestFor] using
        hbound (confluenceSearchRequestFor sourcePage pageId n expand) found hse
  · intro fetchResp search issueKey req hreq
    cases fetchResp with
    | error e =>
      simp [runGetRelatedIssues, runGetIssue] at hreq
    | ok issue =>
      cases hse : search (jiraSearchRequestFor issue issueKey) <;>
        simp [runGetRelatedIssues, runGetIssue, runSearchIssues, hse] at hreq <;>
        simp [hreq, jiraSearchRequestFor]
  · intro issue search issueKey issues hbound hres
    cases hse : search (jiraSearchRequestFor issue issueKey) with
    | error e =>
      simp [runGetRelatedIssues, runGetIssue, runSearchIssues, hse] at hres
    | ok sr =>
      simp [runGetRelatedIssues, runGetIssue, runSearchIssues, hse] at hres
      subst hres
      simpa [jiraSearchRequestFor] using
        hbound (jiraSearchRequestFor issue issueKey) sr hse

/-- Witness for C6 (amended) at concrete inputs: the document run with limit 7
issues its request with limit 7, and the concrete issue run requests
`startAt 0, maxResults 10`. -/
theorem C6_amended_result_bounding_witness :
    (confluenceSearchRequestFor
        { id := "123", title := "meeting notes", metadataLabels := some ["oncall"] }
        "123" 7 ["body.storage"]).limit = 7 ∧
    ((jiraSearchRequestFor sampleIssue "P-1").maxResults = 10 ∧
      (jiraSearchRequestFor sampleIssue "P-1").startAt = 0) :=
  ⟨C6_amended_result_bounding.1
      { id := "123", title := "meeting notes", metadataLabels := some ["oncall"] }
      (fun _ => .ok emptyConfluenceList) "123" 7 ["body.storage"] _ (by decide),
   C6_amended_result_bounding.2.2.1 (.ok sampleIssue)
      (fun _ => .ok emptyJiraSearch) "P-1" _ (by decide)⟩

/-- C10: with a non-empty `issueTypes` list, `getSprintIssues` returns exactly
the fetched issues whose issue-type name is a member, in their original order
(a sublist of the fetched list), while `startAt`, `maxResults` and `total` are
returned unchanged; with `issueTypes` omitted or empty, the remote response is
returned unmodified. -/
theorem C10_sprint_issue_filter :
    (∀ (data : JiraIssueListResponse) (t : String) (ts : List String),
      getSprintIssuesFilter data (some (t :: ts)) =
        { data with issues := data.issues.filter (issueTypeMatches (t :: ts)) }) ∧
    (∀ (data : JiraIssueListResponse) (t : String) (ts : List String),
      (getSprintIssuesFilter data (some (t :: ts))).startAt = data.startAt ∧
      (getSprintIssuesFilter data (some (t :: ts))).maxResults = data.maxResults ∧
      (getSprintIssuesFilter data (some (t :: ts))).total = data.total) ∧
    (∀ (data : JiraIssueListResponse) (t : String) (ts : List String),
      (getSprintIssuesFilter data (some (t :: ts))).issues.Sublist data.issues) ∧
    (∀ (data : JiraIssueListResponse) (t : String) (ts : List String)
        (issue : JiraIssue),
      issue ∈ (getSprintIssuesFilter data (some (t :: ts))).issues ↔
        issue ∈ data.issues ∧ issueTypeMatches (t :: ts) issue = true) ∧
    (∀ data : JiraIssueListResponse, getSprintIssuesFilter data none = data) ∧
    (∀ data : JiraIssueListResponse, getSprintIssuesFilter data (some []) = data) := by
  have hfilter : ∀ (data : JiraIssueListResponse) (t : String) (ts : List String),
      getSprintIssuesFilter data (some (t :: ts)) =
        { data with issues := data.issues.filter (issueTypeMatches (t :: ts)) } := by
    intro data t ts
    simp only [getSprintIssuesFilter]
    rw [if_pos (show (t :: ts).length > 0 from Nat.succ_pos ts.length)]
    rfl
  refine ⟨hfilter, ?_, ?_, ?_, fun data => rfl, fun data => rfl⟩
  · intro data t ts
    rw [hfilter]
    exact ⟨rfl, rfl, rfl⟩
  · intro data t ts
    rw [hfilter]
    exact List.filter_sublist _
  · intro data t ts issue
    rw [hfilter]
    exact List.mem_filter

/-- Witness for C10 at a concrete response: filtering `["Story"]` keeps the
`Story` issue, drops a `Bug` issue and an issue without a type, preserves the
other fields, and an empty filter list is the identity. -/
theorem C10_sprint_issue_filter_witness :
    (getSprintIssuesFilter
        { issues := [sampleIssue, bugIssue, untypedIssue],
          maxResults := 50, total := 3, startAt := 0 }
        (some ["Story"])).issues = [sampleIssue] ∧
    (sampleIssue ∈ (getSprintIssuesFilter
        { issues := [sampleIssue], maxResults := 50, total := 1, startAt := 0 }
        (some ["Story", "Bug"])).issues ↔
      sampleIssue ∈ [sampleIssue] ∧
        issueTypeMatches ["Story", "Bug"] sampleIssue = true) ∧
    getSprintIssuesFilter
        { issues := [sampleIssue], maxResults := 50, total := 1, startAt := 0 }
        (some []) =
      { issues := [sampleIssue], maxResults := 50, total := 1, startAt := 0 } :=
  ⟨by decide,
   C10_sprint_issue_filter.2.2.2.1
      { issues := [sampleIssue], maxResults := 50, total := 1, startAt := 0 }
      "Story" ["Bug"] sampleIssue,
   C10_sprint_issue_filter.2.2.2.2.2
      { issues := [sampleIssue], maxResults := 50, total := 1, startAt := 0 }⟩
